import Mathlib

/-!
Verification of the gpg-import repository's key-listing parser, lifecycle
validation, signing-key resolution, git signing configuration, base64 decode
error reporting, and import-pipeline orchestration.

The Rust sources are shallowly embedded: strings become `List Char`, the
`i64` type becomes `Int` with explicit range checks, nom parser combinators
become `Option`-returning functions, and `Result` becomes `Except`.
A Rust `unwrap` that can fail is modelled as a distinguished `panic` outcome.
-/

/-! ## Parser combinator embedding (nom subset used by src/gpg.rs) -/

/-- Boolean prefix test on character lists, matching on the needle first so
that it reduces even when the haystack has a symbolic tail. -/
def pfx : List Char → List Char → Bool
  | [], _ => true
  | a :: as, l =>
    match l with
    | [] => false
    | b :: bs => a == b && pfx as bs

/-- Embedding of nom `take_until(t)`: scans forward to the first occurrence
of `t`, returning (remaining input starting at `t`, consumed text).  Fails
when `t` does not occur.  The occurrence itself is not consumed. -/
def takeUntil (t : List Char) : List Char → Option (List Char × List Char)
  | [] => none
  | c :: cs =>
    if pfx t (c :: cs) then some (c :: cs, [])
    else (takeUntil t cs).map (fun r => (r.1, c :: r.2))

/-- Embedding of nom `tag(t)`: consumes the literal `t` or fails. -/
def ptag (t : List Char) (i : List Char) : Option (List Char) :=
  if pfx t i then some (i.drop t.length) else none

/-- Embedding of nom `pair(take_until(":"), tag(":"))`: one colon-terminated
field (the captured field text, with the terminating colon consumed). -/
def fieldColon (i : List Char) : Option (List Char × List Char) :=
  match takeUntil [':'] i with
  | some (r, f) =>
    match r with
    | c :: r2 => if c = ':' then some (r2, f) else none
    | [] => none
  | none => none

/-- Embedding of nom `count(pair(take_until(":"), tag(":")), n)`: reads `n`
colon-terminated fields in sequence. -/
def fields : Nat → List Char → Option (List Char × List (List Char))
  | 0, i => some (i, [])
  | n + 1, i =>
    (fieldColon i).bind fun p =>
      (fields n p.1).map fun q => (q.1, p.2 :: q.2)

/-- Embedding of nom `count(tag(":"), n)`: consumes exactly `n` colons. -/
def skipColons : Nat → List Char → Option (List Char)
  | 0, i => some i
  | n + 1, i =>
    match i with
    | c :: r => if c = ':' then skipColons n r else none
    | [] => none

/-! ## Data model (src/gpg.rs lines 132-158) -/

/-- Embedding of `GpgKeyDetails` (src/gpg.rs lines 145-158): internal
details of one secret key or subkey. -/
structure GpgKeyDetails where
  creation_date : Int
  expiration_date : Option Int
  fingerprint : List Char
  key_id : List Char
  keygrip : List Char
  deriving DecidableEq, Repr

/-- Embedding of `GpgPrivateKey` (src/gpg.rs lines 132-143).  Note that the
subkey field `secret_subkey` is not optional in the source. -/
structure GpgPrivateKey where
  user_name : List Char
  user_email : List Char
  secret_key : GpgKeyDetails
  secret_subkey : GpgKeyDetails
  deriving DecidableEq, Repr

/-! ## Integer field parsing (Rust `str::parse::<i64>`) -/

/-- Numeric value of an ASCII decimal digit, `none` for any other char. -/
def digitVal (c : Char) : Option Nat :=
  if '0' ≤ c ∧ c ≤ '9' then some (c.toNat - '0'.toNat) else none

/-- Accumulating decimal reader; fails on the first non-digit. -/
def parseNatGo : Nat → List Char → Option Nat
  | acc, [] => some acc
  | acc, c :: cs =>
    match digitVal c with
    | some d => parseNatGo (10 * acc + d) cs
    | none => none

/-- Reads a non-empty all-digit string as a natural number. -/
def parseNatDigits (l : List Char) : Option Nat :=
  match l with
  | [] => none
  | _ :: _ => parseNatGo 0 l

/-- Smallest value of Rust `i64`. -/
def i64Lo : Int := -(2 ^ 63)

/-- Largest value of Rust `i64`. -/
def i64Hi : Int := 2 ^ 63 - 1

/-- Range check applied by Rust `i64` parsing (overflow is an error). -/
def i64Check (v : Int) : Option Int :=
  if i64Lo ≤ v ∧ v ≤ i64Hi then some v else none

/-- Embedding of Rust `str::parse::<i64>()`: optional sign, then a non-empty
run of decimal digits, rejecting values outside the `i64` range. -/
def parseI64 (l : List Char) : Option Int :=
  match l with
  | [] => none
  | c :: cs =>
    if c = '+' then (parseNatDigits cs).bind fun n => i64Check (Int.ofNat n)
    else if c = '-' then (parseNatDigits cs).bind fun n => i64Check (-(Int.ofNat n))
    else (parseNatDigits (c :: cs)).bind fun n => i64Check (Int.ofNat n)

/-! ## The secret-key listing parser (src/gpg.rs lines 242-293) -/

/-- Raw text captures produced by the combinator phase of
`parse_gpg_key_details`. -/
structure RawCaptures where
  sec : List (List Char)
  secFpr : List Char
  secGrp : List Char
  uidName : List Char
  uidEmail : List Char
  ssb : List (List Char)
  ssbFpr : List Char
  ssbGrp : List Char
  deriving DecidableEq, Repr

/-- Key-block header scan shared by the `sec` (src/gpg.rs lines 243-244)
and `ssb` (lines 257-258) records: the record tag, 4 skipped fields, then 3
captured fields (key id, creation date, expiration date). -/
def scanKeyBlock (t : List Char) (input : List Char) : Option (List Char × List (List Char)) :=
  (ptag t input).bind fun i0 =>
  (fields 4 i0).bind fun p1 =>
  fields 3 p1.1

/-- Fingerprint/keygrip scan shared by the primary segment (src/gpg.rs
lines 245-248) and the subkey segment (lines 259-262): skip to `fpr`, read
the field after 9 colons, skip to `grp`, read the field after 9 colons. -/
def scanFprGrp (i : List Char) : Option (List Char × (List Char × List Char)) :=
  (takeUntil ['f','p','r'] i).bind fun r1 =>
  (ptag ['f','p','r'] r1.1).bind fun i1 =>
  (skipColons 9 i1).bind fun i2 =>
  (takeUntil [':'] i2).bind fun rFpr =>
  (takeUntil ['g','r','p'] rFpr.1).bind fun r2 =>
  (ptag ['g','r','p'] r2.1).bind fun i3 =>
  (skipColons 9 i3).bind fun i4 =>
  (takeUntil [':'] i4).map fun rGrp =>
  (rGrp.1, rFpr.2, rGrp.2)

/-- The uid scan (src/gpg.rs lines 249-255): skip to `uid`, 9 skipped
fields, then the `Name <email>` pair split on the first ` <` and `>`. -/
def scanUid (i : List Char) : Option (List Char × (List Char × List Char)) :=
  (takeUntil ['u','i','d'] i).bind fun r3 =>
  (ptag ['u','i','d'] r3.1).bind fun i5 =>
  (fields 9 i5).bind fun p2 =>
  (takeUntil [' ','<'] p2.1).bind fun rName =>
  (ptag [' ','<'] rName.1).bind fun i6 =>
  (takeUntil ['>'] i6).map fun rEmail =>
  (rEmail.1, rName.2, rEmail.2)

/-- Combinator phase of `parse_gpg_key_details` (src/gpg.rs lines 243-262):
the `sec` block, its fingerprint/keygrip, the uid, then the mandatory `ssb`
block with its fingerprint/keygrip. -/
def scanCaptures (input : List Char) : Option RawCaptures :=
  (scanKeyBlock ['s','e','c'] input).bind fun psec =>
  (scanFprGrp psec.1).bind fun s1 =>
  (scanUid s1.1).bind fun u =>
  (takeUntil ['s','s','b'] u.1).bind fun r4 =>
  (scanKeyBlock ['s','s','b'] r4.1).bind fun pssb =>
  (scanFprGrp pssb.1).map fun s2 =>
  { sec := psec.2, secFpr := s1.2.1, secGrp := s1.2.2,
    uidName := u.2.1, uidEmail := u.2.2,
    ssb := pssb.2, ssbFpr := s2.2.1, ssbGrp := s2.2.2 }

/-- Outcome of running `parse_gpg_key_details`: a parsed key, a nom parse
failure, or a Rust panic (the source applies `.parse::<i64>().unwrap()` to
the creation-date and expiration-date fields, src/gpg.rs lines 270-285). -/
inductive ParseOutcome where
  | ok (key : GpgPrivateKey)
  | fail
  | panic
  deriving DecidableEq, Repr

/-- Conversion of a raw expiration field (src/gpg.rs lines 271-275 and
282-286): the empty field means no expiration, any other text goes through
`parse::<i64>().unwrap()`, whose failure is a panic (modelled as `none`
here and propagated to `ParseOutcome.panic`). -/
def expiryField (f : List Char) : Option (Option Int) :=
  if f = [] then some none else (parseI64 f).map some

/-- Embedding of `parse_gpg_key_details` (src/gpg.rs lines 242-293),
combinator phase followed by the record construction with its unwrapped
integer conversions. -/
def parse_gpg_key_details (input : List Char) : ParseOutcome :=
  match scanCaptures input with
  | none => ParseOutcome.fail
  | some c =>
    match parseI64 (c.sec.getD 1 []), expiryField (c.sec.getD 2 []),
          parseI64 (c.ssb.getD 1 []), expiryField (c.ssb.getD 2 []) with
    | some cr1, some e1, some cr2, some e2 =>
      ParseOutcome.ok
        { user_name := c.uidName
          user_email := c.uidEmail
          secret_key :=
            { creation_date := cr1, expiration_date := e1,
              fingerprint := c.secFpr, key_id := c.sec.getD 0 [],
              keygrip := c.secGrp }
          secret_subkey :=
            { creation_date := cr2, expiration_date := e2,
              fingerprint := c.ssbFpr, key_id := c.ssb.getD 0 [],
              keygrip := c.ssbGrp } }
    | _, _, _, _ => ParseOutcome.panic

/-! ## Decimal rendering (Rust `format!("{}", i64)`) -/

/-- The ASCII character for a decimal digit value (values above 9 cannot be
produced by `n % 10`). -/
def digitChar : Nat → Char
  | 0 => '0' | 1 => '1' | 2 => '2' | 3 => '3' | 4 => '4'
  | 5 => '5' | 6 => '6' | 7 => '7' | 8 => '8' | _ => '9'

/-- Fuelled digit emitter for decimal rendering of a natural number. -/
def natDigitsGo : Nat → Nat → List Char → List Char
  | 0, _, acc => acc
  | fuel + 1, n, acc =>
    if n < 10 then digitChar n :: acc
    else natDigitsGo fuel (n / 10) (digitChar (n % 10) :: acc)

/-- Decimal rendering of a natural number, most significant digit first. -/
def natDigits (n : Nat) : List Char :=
  natDigitsGo (n + 1) n []

/-- Decimal rendering of an integer, as Rust `format!("{}", v)` renders an
`i64`: a `-` sign for negatives, then the digits. -/
def intStr (v : Int) : List Char :=
  if v < 0 then '-' :: natDigits (-v).toNat else natDigits v.toNat

/-- Rendering of an optional expiration timestamp as a listing field: the
empty field for no expiration, the decimal text otherwise. -/
def renderExp : Option Int → List Char
  | none => []
  | some v => intStr v

/-! ## Listing fixture (generate_gpg_colon_format, src/gpg.rs lines 419-439)

The test fixture produces the seven-line colon listing

  sec:u:4096:1:FDEFE8AB8796E127:{skc}:{ske}::u:::scESC:::+:::23::0:
  fpr:::::::::BEEA4CDB4B0A80CBABB99B45FDEFE8AB8796E127:
  grp:::::::::C4403DA4AF911084480BA46743E707CCDD082A24:
  uid:u::::{skc}::0E9C7598797E7F7A380A72A58B9B7FA28160AB06::batman <batman@dc.com>::::::::::0:
  ssb:u:4096:1:BE6663F6A323FBE8:{sbkc}:{sbke}:::::e:::+:::23:
  fpr:::::::::F36BE03211AF1D3CE26D8B3ABE6663F6A323FBE8:
  grp:::::::::4AC8E7E7FD8B405DF2761726D296F98C9B778875:

with the four timestamps interpolated (the uid creation field reuses the
secret-key creation timestamp, exactly as the source does). -/

/-- The fixture listing with the four interpolated fields kept abstract.
The text is exactly the fixture template above; the field-terminating
colons adjacent to each interpolated field are written as explicit cons
cells so that the interpolation points are visible to the lemmas. -/
def mkListing (c1 e1 c2 e2 : List Char) : List Char :=
  "sec:u:4096:1:FDEFE8AB8796E127:".toList ++
    (c1 ++ (':' :: (e1 ++ (':' ::
      (":u:::scESC:::+:::23::0:\nfpr:::::::::BEEA4CDB4B0A80CBABB99B45FDEFE8AB8796E127:\ngrp:::::::::C4403DA4AF911084480BA46743E707CCDD082A24:\nuid:u::::".toList ++
        (c1 ++ (':' ::
          (":0E9C7598797E7F7A380A72A58B9B7FA28160AB06::batman <batman@dc.com>::::::::::0:\nssb:u:4096:1:BE6663F6A323FBE8:".toList ++
            (c2 ++ (':' :: (e2 ++ (':' ::
              "::::e:::+:::23:\nfpr:::::::::F36BE03211AF1D3CE26D8B3ABE6663F6A323FBE8:\ngrp:::::::::4AC8E7E7FD8B405DF2761726D296F98C9B778875:".toList))))))))))))

/-- Embedding of the test fixture `generate_gpg_colon_format` (src/gpg.rs
lines 419-439): the fixture template with the four `i64` timestamps
rendered in decimal. -/
def generate_gpg_colon_format (skc ske sbkc sbke : Int) : List Char :=
  mkListing (intStr skc) (intStr ske) (intStr sbkc) (intStr sbke)

/-- The fixture listing truncated after its `uid` line: a listing that
contains the sec, fpr, grp and uid records but no ssb record. -/
def mkListingNoSsb (c1 e1 : List Char) : List Char :=
  "sec:u:4096:1:FDEFE8AB8796E127:".toList ++
    (c1 ++ (':' :: (e1 ++ (':' ::
      (":u:::scESC:::+:::23::0:\nfpr:::::::::BEEA4CDB4B0A80CBABB99B45FDEFE8AB8796E127:\ngrp:::::::::C4403DA4AF911084480BA46743E707CCDD082A24:\nuid:u::::".toList ++
        (c1 ++ (':' ::
          ":0E9C7598797E7F7A380A72A58B9B7FA28160AB06::batman <batman@dc.com>::::::::::0:".toList)))))))

/-- Rendering of a whole `GpgPrivateKey` through the fixture generator, as
claimed by the spec's round-trip property.  The generator accepts only the
four timestamps (identity, fingerprints, key ids and keygrips are
hard-coded in its template), and it has no way to express an absent
expiration, so absent expirations are rendered as `0` via `getD`. -/
def render_via_fixture (k : GpgPrivateKey) : List Char :=
  generate_gpg_colon_format k.secret_key.creation_date
    (k.secret_key.expiration_date.getD 0)
    k.secret_subkey.creation_date
    (k.secret_subkey.expiration_date.getD 0)

/-! ## Errors (src/gpg.rs, src/import.rs and the spec's error kinds) -/

/-- Base64 decode errors of the external base64 crate (only the invalid
byte case is distinguished by the source, src/gpg.rs lines 303-308). -/
inductive B64DecodeErr where
  | invalidByte (offset : Nat) (byte : Char)
  | invalidLength
  | invalidPadding
  deriving DecidableEq, Repr

/-- Error kinds surfaced by the gpg/import modules: the invalid-byte decode
error (src/gpg.rs lines 295-297), other decode failures propagated verbatim
(line 307), a listing parse failure, the two expiry errors (src/gpg.rs
lines 346-362) and the unknown-fingerprint error (src/import.rs line 178). -/
inductive GpgError where
  | invalidByteInGpgKey (offset : Nat) (byte : Char)
  | gpgDecodeFailure (e : B64DecodeErr)
  | malformedListing
  | primaryKeyExpired (expiredOn : Int)
  | subkeyExpired (expiredOn : Int)
  | fingerprintNotFound (fp : List Char)
  deriving DecidableEq, Repr

/-! ## Lifecycle validation (src/gpg.rs lines 345-364) -/

/-- The subkey expiry check of `extract_key_info` (src/gpg.rs lines
355-362): fails when the subkey has an expiration at or before now. -/
def validate_subkey_lifecycle (key : GpgPrivateKey) (now : Int) : Except GpgError Unit :=
  match key.secret_subkey.expiration_date with
  | some e =>
    if e ≤ now then Except.error (GpgError.subkeyExpired e) else Except.ok ()
  | none => Except.ok ()

/-- The expiry validation performed by `extract_key_info` after parsing
(src/gpg.rs lines 345-362): the primary key is checked first and a failure
short-circuits the subkey check.  The ambient `Utc::now()` is passed
explicitly as `now`. -/
def validate_key_lifecycle (key : GpgPrivateKey) (now : Int) : Except GpgError Unit :=
  match key.secret_key.expiration_date with
  | some e =>
    if e ≤ now then Except.error (GpgError.primaryKeyExpired e)
    else validate_subkey_lifecycle key now
  | none => validate_subkey_lifecycle key now

/-! ## Signing-key resolution (src/import.rs lines 172-184) -/

/-- Embedding of `GpgImport::resolve_signing_key` (src/import.rs lines
172-184): an explicit fingerprint must match the primary or subkey
fingerprint and is then used verbatim; without one the primary key id is
used. -/
def resolve_signing_key (fingerprint : Option (List Char))
    (private_key : GpgPrivateKey) : Except GpgError (List Char) :=
  match fingerprint with
  | some fp =>
    if fp ≠ private_key.secret_key.fingerprint ∧
       fp ≠ private_key.secret_subkey.fingerprint then
      Except.error (GpgError.fingerprintNotFound fp)
    else Except.ok fp
  | none => Except.ok private_key.secret_key.key_id

/-! ## Git signing configuration (src/git.rs lines 7-65) -/

/-- Embedding of `SigningConfig` (src/git.rs lines 7-21). -/
structure SigningConfig where
  user_name : List Char
  user_email : List Char
  key_id : List Char
  commit_sign : Bool
  tag_sign : Bool
  push_sign : Bool
  deriving DecidableEq, Repr

/-- A value written into the git configuration store. -/
inductive GitConfigValue where
  | strVal (v : List Char)
  | boolVal (b : Bool)
  deriving DecidableEq, Repr

/-- Embedding of `apply_signing_config` (src/git.rs lines 55-65) as the
ordered list of key/value writes it issues against the config store.  Note
the guard on the `push.gpgsign` write is `cfg.tag_sign` in the source
(line 61). -/
def apply_signing_config (cfg : SigningConfig) : List (List Char × GitConfigValue) :=
  [("user.name".toList, GitConfigValue.strVal cfg.user_name),
   ("user.email".toList, GitConfigValue.strVal cfg.user_email),
   ("user.signingKey".toList, GitConfigValue.strVal cfg.key_id),
   ("commit.gpgsign".toList, GitConfigValue.boolVal cfg.commit_sign),
   ("tag.gpgsign".toList, GitConfigValue.boolVal cfg.tag_sign)] ++
  (if cfg.tag_sign then [("push.gpgsign".toList, GitConfigValue.strVal ("if-asked".toList))]
   else [])

/-! ## Base64 decoding (external base64 crate, STANDARD engine)

The base64 crate is an external dependency, not part of this repository;
the fragment below models the behaviour the source relies on: a character
outside the standard alphabet (and not `=`) fails the decode with
`InvalidByte(offset, byte)` for the first such character. -/

/-- The value of a standard-alphabet base64 symbol. -/
def b64Index (c : Char) : Option Nat :=
  if 'A' ≤ c ∧ c ≤ 'Z' then some (c.toNat - 'A'.toNat)
  else if 'a' ≤ c ∧ c ≤ 'z' then some (c.toNat - 'a'.toNat + 26)
  else if '0' ≤ c ∧ c ≤ '9' then some (c.toNat - '0'.toNat + 52)
  else if c = '+' then some 62
  else if c = '/' then some 63
  else none

/-- Whether a character may appear at all in standard base64 input. -/
def validB64Symbol (c : Char) : Bool :=
  (b64Index c).isSome || c = '='

/-- Offset and value of the first invalid symbol, scanning left to right
with `i` the offset of the head of the remaining input. -/
def findInvalidByte : Nat → List Char → Option (Nat × Char)
  | _, [] => none
  | i, c :: cs =>
    if validB64Symbol c then findInvalidByte (i + 1) cs else some (i, c)

/-- Bytes of a run of base64 sextets; a single trailing sextet is a length
error. -/
def sextetsToBytes : List Nat → Option (List Nat)
  | [] => some []
  | [_] => none
  | [a, b] => some [(a * 4 + b / 16) % 256]
  | [a, b, c] => some [(a * 4 + b / 16) % 256, ((b % 16) * 16 + c / 4) % 256]
  | a :: b :: c :: d :: rest =>
    (sextetsToBytes rest).map fun bs =>
      ((a * 4 + b / 16) % 256) :: (((b % 16) * 16 + c / 4) % 256) ::
        (((c % 4) * 64 + d) % 256) :: bs

/-- Model of the base64 crate's STANDARD-engine decode: the first invalid
symbol fails the decode with its offset and value; otherwise trailing `=`
padding is stripped, interior padding is rejected, and the sextets are
packed into bytes. -/
def base64_decode (l : List Char) : Except B64DecodeErr (List Nat) :=
  match findInvalidByte 0 l with
  | some p => Except.error (B64DecodeErr.invalidByte p.1 p.2)
  | none =>
    let body := ((l.reverse.dropWhile fun c => c = '=')).reverse
    if body.any (fun c => c = '=') then Except.error B64DecodeErr.invalidPadding
    else
      match sextetsToBytes (body.filterMap b64Index) with
      | some bs => Except.ok bs
      | none => Except.error B64DecodeErr.invalidLength

/-- The decode step of `import_secret_key` (src/gpg.rs lines 300-309): an
`InvalidByte(offset, byte)` decode error is rewrapped as the source's
`InvalidByteInGpgKey(offset, byte)`; any other decode error propagates. -/
def import_secret_key_decode (key : List Char) : Except GpgError (List Nat) :=
  match base64_decode key with
  | Except.ok d => Except.ok d
  | Except.error (B64DecodeErr.invalidByte off b) =>
    Except.error (GpgError.invalidByteInGpgKey off b)
  | Except.error e => Except.error (GpgError.gpgDecodeFailure e)

/-! ## The import pipeline (src/import.rs)

External processes (gpg, gpg-agent, the git config store, the filesystem)
are abstracted behind `GpgWorld`: the listing the key store would report
for the imported key, whether gpg accepts the key material at all, the
current time, and whether the working directory is a git repository.
Every mutating action is recorded as a `GpgEffect` instead of performed;
process-spawn failures are environmental and are not modelled. -/

/-- The orchestrator configuration built by `GpgImport` (src/import.rs
lines 6-14). -/
structure GpgImportCfg where
  key : List Char
  passphrase : Option (List Char)
  fingerprint : Option (List Char)
  trust_level : Option Nat
  skip_git : Bool
  git_global_config : Bool
  dry_run : Bool

/-- The environment a run interacts with. -/
structure GpgWorld where
  keyDataValid : Bool
  listing : List Char
  now : Int
  repoPresent : Bool

/-- Mutating actions of the pipeline, in the order they would be issued. -/
inductive GpgEffect where
  | importKeyStore
  | writeGpgDefaults
  | writeAgentDefaults
  | presetPassphrase (keygrip : List Char)
  | assignTrustLevel (key_id : List Char) (level : Nat)
  | gitWriteLocal (writes : List (List Char × GitConfigValue))
  | gitWriteGlobal (writes : List (List Char × GitConfigValue))
  deriving DecidableEq, Repr

/-- Success/failure classification of a pipeline run; `panicked` records a
process abort through an `unwrap` failure. -/
inductive PipeOutcome where
  | ok
  | err (e : GpgError)
  | panicked
  deriving DecidableEq, Repr

/-- Whitespace trimming applied to the key and passphrase inputs (Rust
`str::trim`). -/
def trimAscii (l : List Char) : List Char :=
  ((l.dropWhile Char.isWhitespace).reverse.dropWhile Char.isWhitespace).reverse

/-- Result of the import stage (`GpgImport::import_gpg_key`). -/
structure ImportStageResult where
  outcome : PipeOutcome
  key : Option GpgPrivateKey
  effects : List GpgEffect
  deriving DecidableEq, Repr

/-- The pure core of `extract_key_info` (src/gpg.rs lines 329-365) over
the abstracted world: parse the key store's listing, then run the expiry
validation; a parse failure surfaces as a malformed-listing error and the
`unwrap` panics of the parser surface as a panicked run. -/
def extract_key_info (w : GpgWorld) : PipeOutcome × Option GpgPrivateKey :=
  match parse_gpg_key_details w.listing with
  | ParseOutcome.fail => (PipeOutcome.err GpgError.malformedListing, none)
  | ParseOutcome.panic => (PipeOutcome.panicked, none)
  | ParseOutcome.ok k =>
    match validate_key_lifecycle k w.now with
    | Except.error e => (PipeOutcome.err e, none)
    | Except.ok _ => (PipeOutcome.ok, some k)

/-- The real (non-dry-run) arm of `import_gpg_key` (src/import.rs lines
84-101): decode and import the key, extract and validate the imported key,
then write the gpg and agent default config files.  The import itself
mutates the key store before the listing is parsed; the stderr scrape of
`import_secret_key` panics through `unwrap` when gpg rejects the key
material (src/gpg.rs line 325). -/
def import_gpg_key_real (c : GpgImportCfg) (w : GpgWorld) : ImportStageResult :=
  match import_secret_key_decode (trimAscii c.key) with
  | Except.error e => { outcome := PipeOutcome.err e, key := none, effects := [] }
  | Except.ok _ =>
    if w.keyDataValid then
      match extract_key_info w with
      | (PipeOutcome.ok, some k) =>
        { outcome := PipeOutcome.ok, key := some k,
          effects := [GpgEffect.importKeyStore, GpgEffect.writeGpgDefaults,
            GpgEffect.writeAgentDefaults] }
      | (st, ko) =>
        { outcome := st, key := ko, effects := [GpgEffect.importKeyStore] }
    else
      { outcome := PipeOutcome.panicked, key := none,
        effects := [GpgEffect.importKeyStore] }

/-- Modelled from the spec: `gpg::preview_key` is called by the dry-run arm
of `import_gpg_key` (src/import.rs line 86) but its definition is not under
src/ (only tests and callers reference it).  Spec section 4.4 step 2 and
section 7 state that dry-run substitutes a non-mutating preview step that
performs the same parse and validation as the real import path and
surfaces the same errors without registering the key, so the preview is
modelled as the real stage's decode, listing extraction and lifecycle
validation, with no mutation. -/
def preview_key (c : GpgImportCfg) (w : GpgWorld) : PipeOutcome × Option GpgPrivateKey :=
  match import_secret_key_decode (trimAscii c.key) with
  | Except.error e => (PipeOutcome.err e, none)
  | Except.ok _ =>
    if w.keyDataValid then extract_key_info w
    else (PipeOutcome.panicked, none)

/-- Effects of `configure_gpg_passphrase` (src/import.rs lines 103-126):
when a passphrase is supplied and dry-run is off, it is preset against the
primary and subkey keygrips. -/
def configure_gpg_passphrase (c : GpgImportCfg) (k : GpgPrivateKey) : List GpgEffect :=
  match c.passphrase with
  | none => []
  | some _ =>
    if c.dry_run then []
    else [GpgEffect.presetPassphrase k.secret_key.keygrip,
          GpgEffect.presetPassphrase k.secret_subkey.keygrip]

/-- Effects of `configure_gpg_trust_level` (src/import.rs lines 128-144):
when a trust level is supplied and dry-run is off, it is assigned against
the primary key id. -/
def configure_gpg_trust_level (c : GpgImportCfg) (k : GpgPrivateKey) : List GpgEffect :=
  match c.trust_level with
  | none => []
  | some lvl =>
    if c.dry_run then []
    else [GpgEffect.assignTrustLevel k.secret_key.key_id lvl]

/-- Effects of `apply_git_config` (src/import.rs lines 186-200): global
scope takes precedence, otherwise the local repository is configured when
present; the write itself is suppressed under dry-run. -/
def apply_git_config (c : GpgImportCfg) (w : GpgWorld) (cfg : SigningConfig) : List GpgEffect :=
  if c.git_global_config then
    if c.dry_run then [] else [GpgEffect.gitWriteGlobal (apply_signing_config cfg)]
  else if w.repoPresent then
    if c.dry_run then [] else [GpgEffect.gitWriteLocal (apply_signing_config cfg)]
  else []

/-- `configure_git_signing` (src/import.rs lines 146-170): skipped when
requested or when there is neither a repository nor a global-scope request;
otherwise the signing key is resolved (which can fail) and the signing
configuration is built with all three sign flags set and applied. -/
def configure_git_signing (c : GpgImportCfg) (w : GpgWorld)
    (k : GpgPrivateKey) : Except GpgError (List GpgEffect) :=
  if c.skip_git then Except.ok []
  else if ¬c.git_global_config ∧ ¬w.repoPresent then Except.ok []
  else
    match resolve_signing_key c.fingerprint k with
    | Except.error e => Except.error e
    | Except.ok signing_key =>
      Except.ok (apply_git_config c w
        { user_name := k.user_name, user_email := k.user_email,
          key_id := signing_key, commit_sign := true, tag_sign := true,
          push_sign := true })

/-- The full pipeline `GpgImport::import` (src/import.rs lines 67-82):
the import/preview stage, then passphrase caching, trust assignment and
git signing configuration.  Returns the run's classification and the list
of mutating actions issued. -/
def gpg_import_run (c : GpgImportCfg) (w : GpgWorld) : PipeOutcome × List GpgEffect :=
  let s1 : ImportStageResult :=
    if c.dry_run then
      { outcome := (preview_key c w).1, key := (preview_key c w).2, effects := [] }
    else import_gpg_key_real c w
  match s1.outcome, s1.key with
  | PipeOutcome.ok, some k =>
    let eff := s1.effects ++ configure_gpg_passphrase c k ++ configure_gpg_trust_level c k
    match configure_git_signing c w k with
    | Except.error e => (PipeOutcome.err e, eff)
    | Except.ok geff => (PipeOutcome.ok, eff ++ geff)
  | st, _ => (st, s1.effects)

/-! ## Shared concrete values used by the claim statements -/

/-- The key record described by the fixture listing: the hard-coded batman
identity, fingerprints, key ids and keygrips, with the four timestamps
abstract. -/
def fixtureKey (v1 : Int) (o1 : Option Int) (v2 : Int) (o2 : Option Int) : GpgPrivateKey :=
  { user_name := "batman".toList
    user_email := "batman@dc.com".toList
    secret_key :=
      { creation_date := v1, expiration_date := o1,
        fingerprint := "BEEA4CDB4B0A80CBABB99B45FDEFE8AB8796E127".toList,
        key_id := "FDEFE8AB8796E127".toList,
        keygrip := "C4403DA4AF911084480BA46743E707CCDD082A24".toList }
    secret_subkey :=
      { creation_date := v2, expiration_date := o2,
        fingerprint := "F36BE03211AF1D3CE26D8B3ABE6663F6A323FBE8".toList,
        key_id := "BE6663F6A323FBE8".toList,
        keygrip := "4AC8E7E7FD8B405DF2761726D296F98C9B778875".toList } }

/-- A key record that differs from the fixture's hard-coded identity. -/
def robinKey : GpgPrivateKey :=
  { fixtureKey 100 (some 200) 300 (some 400) with user_name := "robin".toList }

/-- A small key record with abstract expirations, for concrete witnesses. -/
def tinyKey (exp1 exp2 : Option Int) : GpgPrivateKey :=
  { user_name := ['u'], user_email := ['e']
    secret_key :=
      { creation_date := 0, expiration_date := exp1,
        fingerprint := ['A'], key_id := ['K'], keygrip := ['G'] }
    secret_subkey :=
      { creation_date := 0, expiration_date := exp2,
        fingerprint := ['B'], key_id := ['L'], keygrip := ['H'] } }

/-! ## Helper lemmas: the combinators on semi-symbolic input -/

theorem takeUntil_colon_sym (f X : List Char) (h : ':' ∉ f) :
    takeUntil [':'] (f ++ (':' :: X)) = some (':' :: X, f) := by
  induction f with
  | nil => rfl
  | cons c cs ih =>
    simp only [List.mem_cons, not_or] at h
    have hcb : ((':' : Char) == c) = false := beq_eq_false_iff_ne.mpr h.1
    simp [takeUntil, pfx, hcb, ih h.2]

theorem fieldColon_sym (f X : List Char) (h : ':' ∉ f) :
    fieldColon (f ++ (':' :: X)) = some (X, f) := by
  simp [fieldColon, takeUntil_colon_sym f X h]

theorem fields_add (m n : Nat) (i : List Char) :
    fields (m + n) i =
      (fields m i).bind fun p =>
        (fields n p.1).map fun q => (q.1, p.2 ++ q.2) := by
  induction m generalizing i with
  | zero => simp [fields]
  | succ m ih =>
    rw [Nat.add_right_comm m 1 n]
    simp only [fields]
    cases h : fieldColon i with
    | none => simp
    | some p =>
      simp [ih p.1]
      cases fields m p.1 <;> simp
      case some q => cases fields n q.1 <;> simp

theorem fields3_gen (k f1 f2 X : List Char) (hk : ':' ∉ k) (h1 : ':' ∉ f1)
    (h2 : ':' ∉ f2) :
    fields 3 (k ++ (':' :: (f1 ++ (':' :: (f2 ++ (':' :: X)))))) =
      some (X, [k, f1, f2]) := by
  simp [fields, fieldColon_sym _ _ hk, fieldColon_sym _ _ h1, fieldColon_sym _ _ h2]

/-! ## Helper lemmas: the scan of the fixture listing -/

theorem scanKeyBlock_sec (f1 f2 X : List Char) (h1 : ':' ∉ f1) (h2 : ':' ∉ f2) :
    scanKeyBlock ['s','e','c']
        ("sec:u:4096:1:FDEFE8AB8796E127:".toList ++ (f1 ++ (':' :: (f2 ++ (':' :: X))))) =
      some (X, ["FDEFE8AB8796E127".toList, f1, f2]) := by
  have e1 : ∀ Y, ptag ['s','e','c'] ("sec:u:4096:1:FDEFE8AB8796E127:".toList ++ Y) =
      some (":u:4096:1:FDEFE8AB8796E127:".toList ++ Y) := fun Y => rfl
  have e2 : ∀ Y, fields 4 (":u:4096:1:FDEFE8AB8796E127:".toList ++ Y) =
      some ("FDEFE8AB8796E127:".toList ++ Y, [[], ['u'], "4096".toList, ['1']]) := fun Y => rfl
  have e3 : ∀ Y : List Char, ("FDEFE8AB8796E127:".toList ++ Y) =
      ("FDEFE8AB8796E127".toList ++ (':' :: Y)) := fun Y => rfl
  unfold scanKeyBlock
  simp only [e1, e2, Option.some_bind]
  rw [e3]
  exact fields3_gen _ _ _ _ (by decide) h1 h2

theorem scanKeyBlock_ssb (f1 f2 X : List Char) (h1 : ':' ∉ f1) (h2 : ':' ∉ f2) :
    scanKeyBlock ['s','s','b']
        ("ssb:u:4096:1:BE6663F6A323FBE8:".toList ++ (f1 ++ (':' :: (f2 ++ (':' :: X))))) =
      some (X, ["BE6663F6A323FBE8".toList, f1, f2]) := by
  have e1 : ∀ Y, ptag ['s','s','b'] ("ssb:u:4096:1:BE6663F6A323FBE8:".toList ++ Y) =
      some (":u:4096:1:BE6663F6A323FBE8:".toList ++ Y) := fun Y => rfl
  have e2 : ∀ Y, fields 4 (":u:4096:1:BE6663F6A323FBE8:".toList ++ Y) =
      some ("BE6663F6A323FBE8:".toList ++ Y, [[], ['u'], "4096".toList, ['1']]) := fun Y => rfl
  have e3 : ∀ Y : List Char, ("BE6663F6A323FBE8:".toList ++ Y) =
      ("BE6663F6A323FBE8".toList ++ (':' :: Y)) := fun Y => rfl
  unfold scanKeyBlock
  simp only [e1, e2, Option.some_bind]
  rw [e3]
  exact fields3_gen _ _ _ _ (by decide) h1 h2

theorem scanFprGrp_sec (X : List Char) :
    scanFprGrp
        (":u:::scESC:::+:::23::0:\nfpr:::::::::BEEA4CDB4B0A80CBABB99B45FDEFE8AB8796E127:\ngrp:::::::::C4403DA4AF911084480BA46743E707CCDD082A24:\nuid:u::::".toList ++ X) =
      some (":\nuid:u::::".toList ++ X,
        ("BEEA4CDB4B0A80CBABB99B45FDEFE8AB8796E127".toList,
         "C4403DA4AF911084480BA46743E707CCDD082A24".toList)) := rfl

theorem scanUid_gen (f X : List Char) (h : ':' ∉ f) :
    scanUid (":\nuid:u::::".toList ++ (f ++ (':' ::
        (":0E9C7598797E7F7A380A72A58B9B7FA28160AB06::batman <batman@dc.com>::::::::::0:\nssb:u:4096:1:BE6663F6A323FBE8:".toList ++ X)))) =
      some (">::::::::::0:\nssb:u:4096:1:BE6663F6A323FBE8:".toList ++ X,
        ("batman".toList, "batman@dc.com".toList)) := by
  have e1 : ∀ Y, takeUntil ['u','i','d'] (":\nuid:u::::".toList ++ Y) =
      some ("uid:u::::".toList ++ Y, ":\n".toList) := fun Y => rfl
  have e2 : ∀ Y, ptag ['u','i','d'] ("uid:u::::".toList ++ Y) =
      some (":u::::".toList ++ Y) := fun Y => rfl
  have h5 : ∀ Y, fields 5 (":u::::".toList ++ Y) =
      some (Y, [[], ['u'], [], [], []]) := fun Y => rfl
  have h3 : ∀ Y, fields 3
      (":0E9C7598797E7F7A380A72A58B9B7FA28160AB06::batman <batman@dc.com>::::::::::0:\nssb:u:4096:1:BE6663F6A323FBE8:".toList ++ Y) =
      some ("batman <batman@dc.com>::::::::::0:\nssb:u:4096:1:BE6663F6A323FBE8:".toList ++ Y,
        [[], "0E9C7598797E7F7A380A72A58B9B7FA28160AB06".toList, []]) := fun Y => rfl
  have f9 : fields 9 (":u::::".toList ++ (f ++ (':' ::
      (":0E9C7598797E7F7A380A72A58B9B7FA28160AB06::batman <batman@dc.com>::::::::::0:\nssb:u:4096:1:BE6663F6A323FBE8:".toList ++ X)))) =
      some ("batman <batman@dc.com>::::::::::0:\nssb:u:4096:1:BE6663F6A323FBE8:".toList ++ X,
        [[], ['u'], [], [], [], f, [],
          "0E9C7598797E7F7A380A72A58B9B7FA28160AB06".toList, []]) := by
    have e9 : (9 : Nat) = 5 + (1 + 3) := rfl
    rw [e9, fields_add, h5]
    simp only [Option.some_bind]
    rw [fields_add]
    simp [fields, fieldColon_sym _ _ h, h3]
    all_goals rfl
  have e4 : ∀ Y, takeUntil [' ','<']
      ("batman <batman@dc.com>::::::::::0:\nssb:u:4096:1:BE6663F6A323FBE8:".toList ++ Y) =
      some (" <batman@dc.com>::::::::::0:\nssb:u:4096:1:BE6663F6A323FBE8:".toList ++ Y,
        "batman".toList) := fun Y => rfl
  have e5 : ∀ Y, ptag [' ','<']
      (" <batman@dc.com>::::::::::0:\nssb:u:4096:1:BE6663F6A323FBE8:".toList ++ Y) =
      some ("batman@dc.com>::::::::::0:\nssb:u:4096:1:BE6663F6A323FBE8:".toList ++ Y) := fun Y => rfl
  have e6 : ∀ Y, takeUntil ['>']
      ("batman@dc.com>::::::::::0:\nssb:u:4096:1:BE6663F6A323FBE8:".toList ++ Y) =
      some (">::::::::::0:\nssb:u:4096:1:BE6663F6A323FBE8:".toList ++ Y,
        "batman@dc.com".toList) := fun Y => rfl
  unfold scanUid
  simp only [e1, e2, Option.some_bind, f9, e4, e5, e6, Option.map_some']

theorem takeUntil_ssb (X : List Char) :
    takeUntil ['s','s','b']
        (">::::::::::0:\nssb:u:4096:1:BE6663F6A323FBE8:".toList ++ X) =
      some ("ssb:u:4096:1:BE6663F6A323FBE8:".toList ++ X, ">::::::::::0:\n".toList) := rfl

theorem scanFprGrp_ssb :
    scanFprGrp
        ("::::e:::+:::23:\nfpr:::::::::F36BE03211AF1D3CE26D8B3ABE6663F6A323FBE8:\ngrp:::::::::4AC8E7E7FD8B405DF2761726D296F98C9B778875:".toList) =
      some ([':'],
        ("F36BE03211AF1D3CE26D8B3ABE6663F6A323FBE8".toList,
         "4AC8E7E7FD8B405DF2761726D296F98C9B778875".toList)) := rfl

/-- The combinator scan of the fixture listing with no-colon interpolated
fields succeeds and captures each field at its claimed position. -/
theorem scanCaptures_mkListing (c1 e1 c2 e2 : List Char)
    (h1 : ':' ∉ c1) (h2 : ':' ∉ e1) (h3 : ':' ∉ c2) (h4 : ':' ∉ e2) :
    scanCaptures (mkListing c1 e1 c2 e2) =
      some { sec := ["FDEFE8AB8796E127".toList, c1, e1],
             secFpr := "BEEA4CDB4B0A80CBABB99B45FDEFE8AB8796E127".toList,
             secGrp := "C4403DA4AF911084480BA46743E707CCDD082A24".toList,
             uidName := "batman".toList,
             uidEmail := "batman@dc.com".toList,
             ssb := ["BE6663F6A323FBE8".toList, c2, e2],
             ssbFpr := "F36BE03211AF1D3CE26D8B3ABE6663F6A323FBE8".toList,
             ssbGrp := "4AC8E7E7FD8B405DF2761726D296F98C9B778875".toList } := by
  unfold scanCaptures mkListing
  rw [scanKeyBlock_sec _ _ _ h1 h2]
  simp only [Option.some_bind]
  rw [scanFprGrp_sec]
  simp only [Option.some_bind]
  rw [scanUid_gen _ _ h1]
  simp only [Option.some_bind]
  rw [takeUntil_ssb]
  simp only [Option.some_bind]
  rw [scanKeyBlock_ssb _ _ _ h3 h4]
  simp only [Option.some_bind]
  rw [scanFprGrp_ssb]
  simp only [Option.map_some']

/-- Parsing the fixture listing: when all four interpolated fields convert
(creation dates parse as `i64`, expiration fields are empty or parse), the
parser returns exactly the fixture key record. -/
theorem parse_mkListing_ok (c1 e1 c2 e2 : List Char) (v1 v2 : Int)
    (o1 o2 : Option Int)
    (h1 : ':' ∉ c1) (h2 : ':' ∉ e1) (h3 : ':' ∉ c2) (h4 : ':' ∉ e2)
    (p1 : parseI64 c1 = some v1) (q1 : expiryField e1 = some o1)
    (p2 : parseI64 c2 = some v2) (q2 : expiryField e2 = some o2) :
    parse_gpg_key_details (mkListing c1 e1 c2 e2) =
      ParseOutcome.ok (fixtureKey v1 o1 v2 o2) := by
  unfold parse_gpg_key_details
  rw [scanCaptures_mkListing c1 e1 c2 e2 h1 h2 h3 h4]
  simp [p1, q1, p2, q2, fixtureKey]

/-! ## Helper lemmas: decimal rendering round-trips through `parseI64` -/

theorem digitChar_isDigit (m : Nat) : (digitChar m).isDigit = true := by
  unfold digitChar
  split <;> decide

theorem natDigitsGo_acc (fuel : Nat) : ∀ n acc,
    natDigitsGo fuel n acc = natDigitsGo fuel n [] ++ acc := by
  induction fuel with
  | zero => intro n acc; rfl
  | succ fuel ih =>
    intro n acc
    by_cases hn : n < 10
    · simp [natDigitsGo, hn]
    · simp only [natDigitsGo, if_neg hn]
      rw [ih (n / 10) (digitChar (n % 10) :: acc), ih (n / 10) [digitChar (n % 10)]]
      simp

theorem natDigitsGo_fuel (fuel : Nat) : ∀ fuel' n acc, n < fuel → n < fuel' →
    natDigitsGo fuel n acc = natDigitsGo fuel' n acc := by
  induction fuel with
  | zero => intro fuel' n acc h; omega
  | succ fuel ih =>
    intro fuel' n acc h h'
    cases fuel' with
    | zero => omega
    | succ fuel' =>
      by_cases hn : n < 10
      · simp [natDigitsGo, hn]
      · simp only [natDigitsGo, if_neg hn]
        have hd : n / 10 < n := Nat.div_lt_self (by omega) (by omega)
        exact ih fuel' (n / 10) _ (by omega) (by omega)

theorem natDigits_lt (n : Nat) (h : n < 10) : natDigits n = [digitChar n] := by
  simp [natDigits, natDigitsGo, h]

theorem natDigits_ge (n : Nat) (h : 10 ≤ n) :
    natDigits n = natDigits (n / 10) ++ [digitChar (n % 10)] := by
  have hd : n / 10 < n := Nat.div_lt_self (by omega) (by omega)
  unfold natDigits
  rw [show natDigitsGo (n + 1) n [] = natDigitsGo n (n / 10) [digitChar (n % 10)] by
    simp [natDigitsGo, Nat.not_lt.mpr h]]
  rw [natDigitsGo_acc n (n / 10) [digitChar (n % 10)]]
  rw [natDigitsGo_fuel n (n / 10 + 1) (n / 10) [] (by omega) (by omega)]

theorem natDigits_isDigit (n : Nat) : ∀ c ∈ natDigits n, c.isDigit = true := by
  induction n using Nat.strong_induction_on with
  | _ n ih =>
    by_cases h : n < 10
    · rw [natDigits_lt n h]
      intro c hc
      rw [List.mem_singleton] at hc
      rw [hc]; exact digitChar_isDigit n
    · rw [natDigits_ge n (by omega)]
      intro c hc
      rcases List.mem_append.mp hc with h1 | h2
      · exact ih (n / 10) (Nat.div_lt_self (by omega) (by omega)) c h1
      · rw [List.mem_singleton] at h2
        rw [h2]; exact digitChar_isDigit (n % 10)

theorem natDigits_ne_nil (n : Nat) : natDigits n ≠ [] := by
  by_cases h : n < 10
  · rw [natDigits_lt n h]; simp
  · rw [natDigits_ge n (by omega)]; simp

theorem intStr_no_colon (v : Int) : ':' ∉ intStr v := by
  unfold intStr
  by_cases hv : v < 0
  · simp only [if_pos hv]
    intro hmem
    rcases List.mem_cons.mp hmem with h | h
    · exact absurd h (by decide)
    · have := natDigits_isDigit _ _ h
      simp at this
  · simp only [if_neg hv]
    intro hmem
    have := natDigits_isDigit _ _ hmem
    simp at this

theorem intStr_ne_nil (v : Int) : intStr v ≠ [] := by
  unfold intStr
  by_cases hv : v < 0
  · simp [if_pos hv]
  · simp only [if_neg hv]
    exact natDigits_ne_nil _

theorem digitVal_digitChar (d : Nat) (h : d < 10) :
    digitVal (digitChar d) = some d := by
  interval_cases d <;> decide

theorem parseNatGo_append (xs : List Char) : ∀ ys a,
    parseNatGo a (xs ++ ys) =
      (parseNatGo a xs).bind fun m => parseNatGo m ys := by
  induction xs with
  | nil => intro ys a; simp [parseNatGo]
  | cons c cs ih =>
    intro ys a
    simp only [List.cons_append, parseNatGo]
    cases digitVal c with
    | none => simp
    | some d => simp [ih]

theorem parseNatGo_natDigits (n : Nat) : ∀ a : Nat,
    ∃ p : Nat, 0 < p ∧ parseNatGo a (natDigits n) = some (a * p + n) := by
  induction n using Nat.strong_induction_on with
  | _ n ih =>
    intro a
    by_cases h : n < 10
    · refine ⟨10, by omega, ?_⟩
      rw [natDigits_lt n h]
      simp [parseNatGo, digitVal_digitChar n h]
      omega
    · have hd : n / 10 < n := Nat.div_lt_self (by omega) (by omega)
      obtain ⟨p, hp, heq⟩ := ih (n / 10) hd a
      refine ⟨p * 10, by positivity, ?_⟩
      rw [natDigits_ge n (by omega), parseNatGo_append, heq]
      simp [parseNatGo, digitVal_digitChar (n % 10) (by omega)]
      have : n % 10 + 10 * (n / 10) = n := by omega
      ring_nf
      omega

theorem parseNatDigits_natDigits (n : Nat) : parseNatDigits (natDigits n) = some n := by
  obtain ⟨p, hp, heq⟩ := parseNatGo_natDigits n 0
  cases hnd : natDigits n with
  | nil => exact absurd hnd (natDigits_ne_nil n)
  | cons c cs =>
    rw [show parseNatDigits (c :: cs) = parseNatGo 0 (c :: cs) from rfl, ← hnd, heq]
    simp

theorem parseI64_intStr (v : Int) (hlo : i64Lo ≤ v) (hhi : v ≤ i64Hi) :
    parseI64 (intStr v) = some v := by
  by_cases hv : v < 0
  · rw [show intStr v = '-' :: natDigits (-v).toNat from by simp [intStr, hv]]
    simp only [parseI64, if_neg (by decide : ¬('-' = '+')), if_pos rfl]
    rw [parseNatDigits_natDigits]
    simp only [Option.some_bind]
    have h1 : (Int.ofNat ((-v).toNat)) = -v := by
      simpa using Int.toNat_of_nonneg (show (0 : Int) ≤ -v by omega)
    rw [h1, neg_neg]
    simp [i64Check, hlo, hhi]
  · rw [show intStr v = natDigits v.toNat from by simp [intStr, hv]]
    cases hnd : natDigits v.toNat with
    | nil => exact absurd hnd (natDigits_ne_nil _)
    | cons c cs =>
      have hdig : c.isDigit = true := by
        apply natDigits_isDigit v.toNat
        rw [hnd]; exact List.mem_cons_self c cs
      have hcp : ¬(c = '+') := by
        intro hc; rw [hc] at hdig; simp at hdig
      have hcm : ¬(c = '-') := by
        intro hc; rw [hc] at hdig; simp at hdig
      simp only [parseI64, if_neg hcp, if_neg hcm]
      rw [← hnd, parseNatDigits_natDigits]
      simp only [Option.some_bind]
      have h1 : (Int.ofNat (v.toNat)) = v := by
        simpa using Int.toNat_of_nonneg (show (0 : Int) ≤ v by omega)
      rw [h1]
      simp [i64Check, hlo, hhi]

theorem expiryField_renderExp (o : Option Int)
    (h : ∀ v, o = some v → i64Lo ≤ v ∧ v ≤ i64Hi) :
    expiryField (renderExp o) = some o := by
  cases o with
  | none => rfl
  | some v =>
    obtain ⟨hlo, hhi⟩ := h v rfl
    simp only [renderExp, expiryField, if_neg (intStr_ne_nil v)]
    rw [parseI64_intStr v hlo hhi]
    rfl

theorem expiryField_intStr (x : Int) (hlo : i64Lo ≤ x) (hhi : x ≤ i64Hi) :
    expiryField (intStr x) = some (some x) := by
  simp only [expiryField, if_neg (intStr_ne_nil x), parseI64_intStr x hlo hhi,
    Option.map_some']

theorem scanUid_noSsb (f : List Char) (h : ':' ∉ f) :
    scanUid (":\nuid:u::::".toList ++ (f ++ (':' ::
        ":0E9C7598797E7F7A380A72A58B9B7FA28160AB06::batman <batman@dc.com>::::::::::0:".toList))) =
      some (">::::::::::0:".toList, ("batman".toList, "batman@dc.com".toList)) := by
  have e1 : ∀ Y, takeUntil ['u','i','d'] (":\nuid:u::::".toList ++ Y) =
      some ("uid:u::::".toList ++ Y, ":\n".toList) := fun Y => rfl
  have e2 : ∀ Y, ptag ['u','i','d'] ("uid:u::::".toList ++ Y) =
      some (":u::::".toList ++ Y) := fun Y => rfl
  have h5 : ∀ Y, fields 5 (":u::::".toList ++ Y) =
      some (Y, [[], ['u'], [], [], []]) := fun Y => rfl
  have h3 : fields 3
      (":0E9C7598797E7F7A380A72A58B9B7FA28160AB06::batman <batman@dc.com>::::::::::0:".toList) =
      some ("batman <batman@dc.com>::::::::::0:".toList,
        [[], "0E9C7598797E7F7A380A72A58B9B7FA28160AB06".toList, []]) := rfl
  have f9 : fields 9 (":u::::".toList ++ (f ++ (':' ::
      ":0E9C7598797E7F7A380A72A58B9B7FA28160AB06::batman <batman@dc.com>::::::::::0:".toList))) =
      some ("batman <batman@dc.com>::::::::::0:".toList,
        [[], ['u'], [], [], [], f, [],
          "0E9C7598797E7F7A380A72A58B9B7FA28160AB06".toList, []]) := by
    have e9 : (9 : Nat) = 5 + (1 + 3) := rfl
    rw [e9, fields_add, h5]
    simp only [Option.some_bind]
    rw [fields_add]
    simp [fields, fieldColon_sym _ _ h, h3]
    all_goals rfl
  have e4 : takeUntil [' ','<'] ("batman <batman@dc.com>::::::::::0:".toList) =
      some (" <batman@dc.com>::::::::::0:".toList, "batman".toList) := rfl
  have e5 : ptag [' ','<'] (" <batman@dc.com>::::::::::0:".toList) =
      some ("batman@dc.com>::::::::::0:".toList) := rfl
  have e6 : takeUntil ['>'] ("batman@dc.com>::::::::::0:".toList) =
      some (">::::::::::0:".toList, "batman@dc.com".toList) := rfl
  unfold scanUid
  simp only [e1, e2, Option.some_bind, f9, e4, e5, e6, Option.map_some']

/-- C1: the claim states that the listing parser is total: every input
yields a key record or a parse failure, and a non-empty non-integer
creation or expiration field is a parse failure, never a panic.  The code
violates this: `parse_gpg_key_details` converts these fields through
`.parse::<i64>().unwrap()` (src/gpg.rs lines 270, 274, 281, 285), so the
fixture listing with creation-date field `abc` drives the process into a
panic rather than a parse failure. -/
theorem claim_C1_nonnumeric_field_panics :
    parse_gpg_key_details (mkListing ("abc".toList) [] ("100".toList) []) =
      ParseOutcome.panic := by
  have h : scanCaptures (mkListing ("abc".toList) [] ("100".toList) []) =
      some { sec := ["FDEFE8AB8796E127".toList, "abc".toList, []],
             secFpr := "BEEA4CDB4B0A80CBABB99B45FDEFE8AB8796E127".toList,
             secGrp := "C4403DA4AF911084480BA46743E707CCDD082A24".toList,
             uidName := "batman".toList,
             uidEmail := "batman@dc.com".toList,
             ssb := ["BE6663F6A323FBE8".toList, "100".toList, []],
             ssbFpr := "F36BE03211AF1D3CE26D8B3ABE6663F6A323FBE8".toList,
             ssbGrp := "4AC8E7E7FD8B405DF2761726D296F98C9B778875".toList } :=
    scanCaptures_mkListing _ _ _ _ (by decide) (by decide) (by decide) (by decide)
  unfold parse_gpg_key_details
  rw [h]
  rfl

/-- C3 counterexample: the claim states that a well-formed listing with
sec, fpr, grp and uid records but no ssb record parses successfully with
an absent subkey.  On the code this is false: the parser requires an ssb
record (src/gpg.rs line 256) and `GpgPrivateKey.secret_subkey` is not
optional, so the no-ssb listing fails to parse. -/
theorem claim_C3_counterexample :
    parse_gpg_key_details (mkListingNoSsb ("100".toList) []) = ParseOutcome.fail := by
  rfl

/-- C3 (amended): the subkey segment is mandatory: for every listing of
the well-formed no-ssb family (sec, fpr, grp and uid records only),
parsing fails; a record is produced only when an ssb record follows, and
the produced record always contains a subkey segment. -/
theorem claim_C3_amended_no_ssb_fails (c1f e1f : List Char)
    (h1 : ':' ∉ c1f) (h2 : ':' ∉ e1f) :
    parse_gpg_key_details (mkListingNoSsb c1f e1f) = ParseOutcome.fail := by
  have hscan : scanCaptures (mkListingNoSsb c1f e1f) = none := by
    unfold scanCaptures mkListingNoSsb
    rw [scanKeyBlock_sec _ _ _ h1 h2]
    simp only [Option.some_bind]
    rw [scanFprGrp_sec]
    simp only [Option.some_bind]
    rw [scanUid_noSsb _ h1]
    simp only [Option.some_bind]
    rw [show takeUntil ['s','s','b'] (">::::::::::0:".toList) = none from rfl]
    rfl
  unfold parse_gpg_key_details
  rw [hscan]

/-- C3 witness: the amended statement at the concrete no-ssb listing with
creation field 100 and empty expiration field. -/
theorem claim_C3_amended_no_ssb_fails_witness :
    parse_gpg_key_details (mkListingNoSsb ("100".toList) []) = ParseOutcome.fail :=
  claim_C3_amended_no_ssb_fails ("100".toList) [] (by decide) (by decide)

/-- C6 counterexample: the round-trip claim quantifies over every
`GpgPrivateKey` with a subkey, but the fixture generator hard-codes the
identity, fingerprints, key ids and keygrips in its template, so a record
whose user name is `robin` renders to a listing that parses back to the
`batman` fixture record, not to itself. -/
theorem claim_C6_counterexample :
    parse_gpg_key_details (render_via_fixture robinKey) ≠ ParseOutcome.ok robinKey := by
  have h : parse_gpg_key_details (render_via_fixture robinKey) =
      ParseOutcome.ok (fixtureKey 100 (some 200) 300 (some 400)) := by
    show parse_gpg_key_details
        (mkListing (intStr 100) (intStr 200) (intStr 300) (intStr 400)) = _
    exact parse_mkListing_ok _ _ _ _ _ _ _ _
      (intStr_no_colon _) (intStr_no_colon _) (intStr_no_colon _) (intStr_no_colon _)
      (parseI64_intStr 100 (by decide) (by decide))
      (expiryField_intStr 200 (by decide) (by decide))
      (parseI64_intStr 300 (by decide) (by decide))
      (expiryField_intStr 400 (by decide) (by decide))
  rw [h]
  decide

/-- C6 (amended): the round-trip holds exactly for what the fixture
generator can express: for all `i64` timestamps, parsing the generated
listing yields the fixture record with those timestamps, both expirations
present (`some`), and the generator's hard-coded identity, fingerprints,
key ids and keygrips. -/
theorem claim_C6_amended_roundtrip (skc ske sbkc sbke : Int)
    (h1 : i64Lo ≤ skc) (h2 : skc ≤ i64Hi) (h3 : i64Lo ≤ ske) (h4 : ske ≤ i64Hi)
    (h5 : i64Lo ≤ sbkc) (h6 : sbkc ≤ i64Hi) (h7 : i64Lo ≤ sbke) (h8 : sbke ≤ i64Hi) :
    parse_gpg_key_details (generate_gpg_colon_format skc ske sbkc sbke) =
      ParseOutcome.ok (fixtureKey skc (some ske) sbkc (some sbke)) := by
  unfold generate_gpg_colon_format
  exact parse_mkListing_ok _ _ _ _ _ _ _ _
    (intStr_no_colon _) (intStr_no_colon _) (intStr_no_colon _) (intStr_no_colon _)
    (parseI64_intStr skc h1 h2) (expiryField_intStr ske h3 h4)
    (parseI64_intStr sbkc h5 h6) (expiryField_intStr sbke h7 h8)

/-- C6 witness: the amended round-trip at the concrete timestamps
1, 2, 3, 4. -/
theorem claim_C6_amended_roundtrip_witness :
    parse_gpg_key_details (generate_gpg_colon_format 1 2 3 4) =
      ParseOutcome.ok (fixtureKey 1 (some 2) 3 (some 4)) :=
  claim_C6_amended_roundtrip 1 2 3 4 (by decide) (by decide) (by decide) (by decide)
    (by decide) (by decide) (by decide) (by decide)

/-- C7: over the well-formed listing family, a non-empty expiration field
(field 7 of the sec or ssb record) that parses as an integer `n` produces
`expiration_date = some n` in the corresponding segment, and an empty
expiration field produces `expiration_date = none`; the creation fields
and all other captures are as positioned. -/
theorem claim_C7_expiration_field
    (c1f e1f c2f e2f : List Char) (v1 v2 : Int) (o1 o2 : Option Int)
    (h1 : ':' ∉ c1f) (h2 : ':' ∉ e1f) (h3 : ':' ∉ c2f) (h4 : ':' ∉ e2f)
    (p1 : parseI64 c1f = some v1) (p2 : parseI64 c2f = some v2)
    (q1 : e1f = [] ∧ o1 = none ∨ ∃ n, parseI64 e1f = some n ∧ o1 = some n)
    (q2 : e2f = [] ∧ o2 = none ∨ ∃ n, parseI64 e2f = some n ∧ o2 = some n) :
    parse_gpg_key_details (mkListing c1f e1f c2f e2f) =
      ParseOutcome.ok (fixtureKey v1 o1 v2 o2) := by
  have conv : ∀ (f : List Char) (o : Option Int),
      (f = [] ∧ o = none ∨ ∃ n, parseI64 f = some n ∧ o = some n) →
      expiryField f = some o := by
    intro f o h
    rcases h with ⟨hf, ho⟩ | ⟨n, hn, ho⟩
    · rw [hf, ho]; rfl
    · have hne : f ≠ [] := by
        intro hf
        rw [hf] at hn
        simp [parseI64] at hn
      rw [ho]
      simp [expiryField, if_neg hne, hn]
  exact parse_mkListing_ok _ _ _ _ _ _ _ _ h1 h2 h3 h4 p1 (conv _ _ q1) p2 (conv _ _ q2)

/-- C7 witness: a concrete listing with a non-empty primary expiration
field `200` and an empty subkey expiration field. -/
theorem claim_C7_expiration_field_witness :
    parse_gpg_key_details (mkListing ("100".toList) ("200".toList) ("300".toList) []) =
      ParseOutcome.ok (fixtureKey 100 (some 200) 300 none) :=
  claim_C7_expiration_field ("100".toList) ("200".toList) ("300".toList) []
    100 300 (some 200) none
    (by decide) (by decide) (by decide) (by decide) (by decide) (by decide)
    (Or.inr ⟨200, by decide, rfl⟩) (Or.inl ⟨rfl, rfl⟩)

/-- C4: lifecycle validation fails with `primaryKeyExpired` whenever the
primary key's expiration is at or before now (including exactly now); when
the primary key is not expired, it fails with `subkeyExpired` whenever the
subkey's expiration is at or before now (the primary check runs first and
short-circuits); when neither expiration is at or before now (or absent),
validation succeeds. -/
theorem claim_C4_lifecycle_validation (k : GpgPrivateKey) (now : Int) :
    (∀ t, k.secret_key.expiration_date = some t → t ≤ now →
      validate_key_lifecycle k now = Except.error (GpgError.primaryKeyExpired t)) ∧
    ((∀ t, k.secret_key.expiration_date = some t → now < t) →
      ∀ t, k.secret_subkey.expiration_date = some t → t ≤ now →
        validate_key_lifecycle k now = Except.error (GpgError.subkeyExpired t)) ∧
    ((∀ t, k.secret_key.expiration_date = some t → now < t) →
     (∀ t, k.secret_subkey.expiration_date = some t → now < t) →
      validate_key_lifecycle k now = Except.ok ()) := by
  refine ⟨?_, ?_, ?_⟩
  · intro t ht hle
    simp [validate_key_lifecycle, ht, if_pos hle]
  · intro hp t ht hle
    cases hk : k.secret_key.expiration_date with
    | none =>
      simp [validate_key_lifecycle, hk, validate_subkey_lifecycle, ht, if_pos hle]
    | some t0 =>
      have h0 := hp t0 hk
      simp [validate_key_lifecycle, hk, if_neg (by omega : ¬t0 ≤ now),
        validate_subkey_lifecycle, ht, if_pos hle]
  · intro hp hs
    cases hk : k.secret_key.expiration_date with
    | none =>
      cases hk2 : k.secret_subkey.expiration_date with
      | none => simp [validate_key_lifecycle, hk, validate_subkey_lifecycle, hk2]
      | some t2 =>
        have h2 := hs t2 hk2
        simp [validate_key_lifecycle, hk, validate_subkey_lifecycle, hk2,
          if_neg (by omega : ¬t2 ≤ now)]
    | some t0 =>
      have h0 := hp t0 hk
      cases hk2 : k.secret_subkey.expiration_date with
      | none =>
        simp [validate_key_lifecycle, hk, if_neg (by omega : ¬t0 ≤ now),
          validate_subkey_lifecycle, hk2]
      | some t2 =>
        have h2 := hs t2 hk2
        simp [validate_key_lifecycle, hk, if_neg (by omega : ¬t0 ≤ now),
          validate_subkey_lifecycle, hk2, if_neg (by omega : ¬t2 ≤ now)]

/-- C4 witness: a primary expiration exactly equal to now fails with the
primary error; a subkey one second before now fails with the subkey error
when the primary expires after now; both one second after now succeed. -/
theorem claim_C4_lifecycle_validation_witness :
    validate_key_lifecycle (tinyKey (some 10) none) 10 =
        Except.error (GpgError.primaryKeyExpired 10) ∧
    validate_key_lifecycle (tinyKey (some 11) (some 9)) 10 =
        Except.error (GpgError.subkeyExpired 9) ∧
    validate_key_lifecycle (tinyKey (some 11) (some 11)) 10 = Except.ok () := by
  refine ⟨?_, ?_, ?_⟩
  · exact (claim_C4_lifecycle_validation (tinyKey (some 10) none) 10).1 10 rfl
      (by decide)
  · exact (claim_C4_lifecycle_validation (tinyKey (some 11) (some 9)) 10).2.1
      (by intro t ht; injection ht with h; omega) 9 rfl (by decide)
  · exact (claim_C4_lifecycle_validation (tinyKey (some 11) (some 11)) 10).2.2
      (by intro t ht; injection ht with h; omega)
      (by intro t ht; injection ht with h; omega)

/-- C5: an explicit fingerprint override equal to the primary or subkey
fingerprint resolves successfully to exactly that fingerprint; an override
equal to neither fails with the fingerprint-not-found error (the spec's
`FingerprintMismatch`). -/
theorem claim_C5_fingerprint_override (k : GpgPrivateKey) (fp : List Char) :
    (fp = k.secret_key.fingerprint ∨ fp = k.secret_subkey.fingerprint →
      resolve_signing_key (some fp) k = Except.ok fp) ∧
    (fp ≠ k.secret_key.fingerprint → fp ≠ k.secret_subkey.fingerprint →
      resolve_signing_key (some fp) k =
        Except.error (GpgError.fingerprintNotFound fp)) := by
  constructor
  · intro h
    rcases h with h | h <;> simp [resolve_signing_key, h]
  · intro h1 h2
    simp [resolve_signing_key, h1, h2]

/-- C5 witness: the subkey fingerprint of `tinyKey` resolves to itself; an
unrelated fingerprint fails with the fingerprint-not-found error. -/
theorem claim_C5_fingerprint_override_witness :
    resolve_signing_key (some ['B']) (tinyKey none none) = Except.ok ['B'] ∧
    resolve_signing_key (some ['Z']) (tinyKey none none) =
      Except.error (GpgError.fingerprintNotFound ['Z']) := by
  constructor
  · exact (claim_C5_fingerprint_override (tinyKey none none) ['B']).1 (Or.inr rfl)
  · exact (claim_C5_fingerprint_override (tinyKey none none) ['Z']).2
      (by decide) (by decide)

/-- C10: with no explicit fingerprint override, signing-key resolution
always returns the primary key's key id (never the subkey's identifier and
never a fingerprint) and never fails. -/
theorem claim_C10_default_signing_key (k : GpgPrivateKey) :
    resolve_signing_key none k = Except.ok k.secret_key.key_id := rfl

/-- C2: the claim states that `push.gpgsign` is written if and only if the
draft's `push_sign` flag is true.  The code gates that write on `tag_sign`
instead (src/git.rs line 61), contradicting the struct's own field
documentation ("A flag to enable GPG signing of pushes, maps to
push.gpgsign") and its `Display` implementation: a draft with
`push_sign = true, tag_sign = false` never writes `push.gpgsign`, while a
draft with `push_sign = false, tag_sign = true` does write it. -/
theorem claim_C2_push_gpgsign_gated_by_tag_sign :
    (∀ kv ∈ apply_signing_config
        { user_name := ['n'], user_email := ['e'], key_id := ['k'],
          commit_sign := true, tag_sign := false, push_sign := true },
      kv.1 ≠ "push.gpgsign".toList) ∧
    ("push.gpgsign".toList, GitConfigValue.strVal ("if-asked".toList)) ∈
      apply_signing_config
        { user_name := ['n'], user_email := ['e'], key_id := ['k'],
          commit_sign := true, tag_sign := true, push_sign := false } := by
  decide

theorem findInvalidByte_eq (l : List Char) : ∀ (i off : Nat) (b : Char),
    l.get? off = some b → validB64Symbol b = false →
    (l.take off).all validB64Symbol = true →
    findInvalidByte i l = some (i + off, b) := by
  induction l with
  | nil =>
    intro i off b h
    simp at h
  | cons c cs ih =>
    intro i off b hoff hbad hbef
    cases off with
    | zero =>
      have hcb : c = b := by simpa using hoff
      subst hcb
      unfold findInvalidByte
      rw [hbad]
      simp
    | succ off' =>
      have hc : validB64Symbol c = true := by
        rw [List.take_succ_cons, List.all_cons] at hbef
        exact (Bool.and_eq_true _ _ |>.mp hbef).1
      have hbef' : (cs.take off').all validB64Symbol = true := by
        rw [List.take_succ_cons, List.all_cons] at hbef
        exact (Bool.and_eq_true _ _ |>.mp hbef).2
      have hoff' : cs.get? off' = some b := by simpa using hoff
      unfold findInvalidByte
      rw [hc]
      simp only [if_true]
      rw [ih (i + 1) off' b hoff' hbad hbef']
      have : i + 1 + off' = i + (off' + 1) := by omega
      rw [this]

/-- C8: for every key string whose base64 decode fails on an invalid
symbol — the character at `off` is outside the standard alphabet (and not
padding) and every character before it is acceptable — the decode step of
`import_secret_key` fails with `InvalidByteInGpgKey(off, b)`, reporting
the offset and value of that first invalid symbol. -/
theorem claim_C8_invalid_byte_reported (key : List Char) (off : Nat) (b : Char)
    (hoff : key.get? off = some b)
    (hbad : validB64Symbol b = false)
    (hbef : (key.take off).all validB64Symbol = true) :
    import_secret_key_decode key =
      Except.error (GpgError.invalidByteInGpgKey off b) := by
  have hfind : findInvalidByte 0 key = some (off, b) := by
    have := findInvalidByte_eq key 0 off b hoff hbad hbef
    simpa using this
  unfold import_secret_key_decode base64_decode
  rw [hfind]

/-- C8 witness: a key string whose first invalid byte is `!` at offset 15
yields `InvalidByteInGpgKey(15, '!')` (the spec's `InvalidEncodingByte`). -/
theorem claim_C8_invalid_byte_reported_witness :
    import_secret_key_decode ("AAAAAAAAAAAAAAA!".toList) =
      Except.error (GpgError.invalidByteInGpgKey 15 '!') :=
  claim_C8_invalid_byte_reported ("AAAAAAAAAAAAAAA!".toList) 15 '!'
    (by decide) (by decide) (by decide)

theorem preview_real_agree (c1 c2 : GpgImportCfg) (w : GpgWorld) (h : c1.key = c2.key) :
    preview_key c1 w =
      ((import_gpg_key_real c2 w).outcome, (import_gpg_key_real c2 w).key) := by
  unfold preview_key import_gpg_key_real
  rw [h]
  cases import_secret_key_decode (trimAscii c2.key) with
  | error e => rfl
  | ok d =>
    cases hv : w.keyDataValid with
    | false => simp [hv]
    | true =>
      simp only [hv, if_true]
      cases hE : extract_key_info w with
      | mk o ko => cases o <;> cases ko <;> rfl

theorem configure_gpg_passphrase_dry (c : GpgImportCfg) (k : GpgPrivateKey)
    (h : c.dry_run = true) : configure_gpg_passphrase c k = [] := by
  unfold configure_gpg_passphrase
  cases c.passphrase <;> simp [h]

theorem configure_gpg_trust_level_dry (c : GpgImportCfg) (k : GpgPrivateKey)
    (h : c.dry_run = true) : configure_gpg_trust_level c k = [] := by
  unfold configure_gpg_trust_level
  cases c.trust_level <;> simp [h]

theorem apply_git_config_dry (c : GpgImportCfg) (w : GpgWorld) (cfg : SigningConfig)
    (h : c.dry_run = true) : apply_git_config c w cfg = [] := by
  unfold apply_git_config
  simp [h]

theorem configure_git_signing_dry_agree (c1 c2 : GpgImportCfg) (w : GpgWorld)
    (k : GpgPrivateKey)
    (hfp : c1.fingerprint = c2.fingerprint) (hskip : c1.skip_git = c2.skip_git)
    (hglob : c1.git_global_config = c2.git_global_config) (hdry : c1.dry_run = true) :
    configure_git_signing c1 w k =
      (configure_git_signing c2 w k).map (fun _ => ([] : List GpgEffect)) := by
  unfold configure_git_signing
  rw [hskip, hglob, hfp]
  cases hs : c2.skip_git with
  | true => simp [hs, Except.map]
  | false =>
    simp only [hs, Bool.false_eq_true, if_false]
    by_cases h2 : ¬c2.git_global_config = true ∧ ¬w.repoPresent = true
    · simp [h2, Except.map]
    · simp only [if_neg h2]
      cases resolve_signing_key c2.fingerprint k with
      | error e => rfl
      | ok sk =>
        simp [Except.map, apply_git_config_dry c1 w _ hdry]

/-- C9: for every orchestrator configuration and world, running the
pipeline with dry-run enabled issues no mutating effect at all (no key
store import, no defaults-file write, no passphrase preset, no trust
assignment, no signing-config write), and returns the same success/failure
classification as the real run on identical input. -/
theorem claim_C9_dry_run_equivalence (c : GpgImportCfg) (w : GpgWorld) :
    (gpg_import_run { c with dry_run := true } w).1 =
      (gpg_import_run { c with dry_run := false } w).1 ∧
    (gpg_import_run { c with dry_run := true } w).2 = [] := by
  have hpre : preview_key { c with dry_run := true } w =
      ((import_gpg_key_real { c with dry_run := false } w).outcome,
       (import_gpg_key_real { c with dry_run := false } w).key) :=
    preview_real_agree _ _ w rfl
  have hpass : ∀ k, configure_gpg_passphrase { c with dry_run := true } k = [] :=
    fun k => configure_gpg_passphrase_dry _ k rfl
  have htrust : ∀ k, configure_gpg_trust_level { c with dry_run := true } k = [] :=
    fun k => configure_gpg_trust_level_dry _ k rfl
  have hgit : ∀ k, configure_git_signing { c with dry_run := true } w k =
      (configure_git_signing { c with dry_run := false } w k).map
        (fun _ => ([] : List GpgEffect)) :=
    fun k => configure_git_signing_dry_agree _ _ w k rfl rfl rfl rfl
  unfold gpg_import_run
  simp only [show ({ c with dry_run := true } : GpgImportCfg).dry_run = true from rfl,
    show ({ c with dry_run := false } : GpgImportCfg).dry_run = false from rfl,
    hpre, hpass, htrust, hgit]
  cases hr : import_gpg_key_real { c with dry_run := false } w with
  | mk o ko eff =>
    simp only [hr]
    cases o <;> cases ko <;>
      simp only [Bool.false_eq_true, if_false, if_true, eq_self_iff_true,
        List.nil_append, List.append_nil] <;>
      try exact ⟨trivial, trivial⟩
    case ok.some k =>
      cases hg : configure_git_signing { c with dry_run := false } w k with
      | error e => simp [Except.map, hg]
      | ok geff => simp [Except.map, hg]
